import Mathlib

/-!
Shallow embedding of the lost-and-found web application
(source files: src/app.py, src/models.py).

Conventions of the embedding:
* Database tables (src/models.py) become lists of records inside a `DB`
  structure; autoincrement primary keys become explicit counters.
* Monetary `Float` columns (`wallet_balance`, `price`, `amount`) are
  modelled as `Rat`; the claims only involve exact decimal amounts.
* `DateTime` columns (`created_at`, `date_posted`, `completed_at`, ...),
  geolocation columns and view counters are not referenced by any claim
  and are omitted from the records.
* A route handler becomes a pure function `DB → args → Option Err × DB`:
  `none` means the success flash, `some e` the error outcome, and the
  second component is the database after the request (error branches in
  the source either return before any write or roll the session back, so
  they leave the database unchanged).
* The error taxonomy `Err` is the spec's (§7).  The observable outcomes
  of the code are mapped onto it: `get_or_404` / `first_or_404` is the
  HTTP 404 outcome, i.e. `Err.notFound`; each flash-and-redirect error
  branch is the constructor matching its message.
-/

namespace LostFound

/-- Error taxonomy of spec §7. `internalError` is the generic
"try again" branch of a route's exception handler. -/
inductive Err where
  | validation
  | auth
  | authorization
  | notFound
  | conflict
  | insufficientFunds
  | internalError
  deriving Repr, DecidableEq

/-- Row of the `users` table (src/models.py, class User).  Profile columns
not referenced by any claim are omitted. -/
structure User where
  id : Nat
  username : String
  email : String
  password_hash : String
  first_name : String
  last_name : String
  phone : Option String
  active : Bool
  wallet_balance : Rat
  deriving Repr, DecidableEq

/-- Row of the `items` table (src/models.py, class Item). -/
structure Item where
  id : String
  type : String
  title : String
  description : String
  category : String
  location : String
  date_lost_found : String
  image : Option String
  status : String
  user_id : Nat
  deriving Repr, DecidableEq

/-- Row of the `notifications` table (src/models.py, class Notification). -/
structure Notification where
  id : Nat
  title : String
  message : String
  type : String
  is_read : Bool
  user_id : Nat
  item_id : Option String
  deriving Repr, DecidableEq

/-- Row of the `market_items` table (src/models.py, class MarketItem). -/
structure MarketItem where
  id : Nat
  title : String
  description : String
  price : Rat
  condition : String
  category : String
  image : Option String
  status : String
  seller_id : Nat
  deriving Repr, DecidableEq

/-- Row of the `orders` table (src/models.py, class Order). -/
structure Order where
  id : Nat
  amount : Rat
  status : String
  buyer_id : Nat
  seller_id : Nat
  item_id : Nat
  deriving Repr, DecidableEq

/-- Row of the `payments` table (src/models.py, class Payment). -/
structure Payment where
  id : Nat
  amount : Rat
  payment_method : String
  status : String
  order_id : Nat
  deriving Repr, DecidableEq

/-- The persistent store: one list per table, plus the autoincrement
counters for the integer primary keys the embedding has to allocate. -/
structure DB where
  users : List User
  items : List Item
  notifications : List Notification
  market_items : List MarketItem
  orders : List Order
  payments : List Payment
  next_notification_id : Nat
  next_order_id : Nat
  next_payment_id : Nat
  deriving Repr, DecidableEq

/-- `User.query.get(uid)` — primary-key lookup. -/
def findUser (db : DB) (uid : Nat) : Option User :=
  db.users.find? (fun u => u.id == uid)

/-- `MarketItem.query.get(iid)` — primary-key lookup. -/
def findMarketItem (db : DB) (iid : Nat) : Option MarketItem :=
  db.market_items.find? (fun it => it.id == iid)

/-- The preconditions of `buy_item` (src/app.py lines 472-487), in source
order: item exists (`get_or_404`), `item.status == "available"`,
`item.seller_id != current_user.id`, `current_user.wallet_balance >=
item.price`.  `current_user` is guaranteed by `login_required`; a missing
buyer row is mapped to `notFound` but is unreachable for a logged-in user. -/
def buy_item_check (db : DB) (buyerId itemId : Nat) : Option Err :=
  match findMarketItem db itemId with
  | none => some .notFound
  | some item =>
    if item.status ≠ "available" then some .conflict
    else if item.seller_id = buyerId then some .validation
    else
      match findUser db buyerId with
      | none => some .notFound
      | some buyer =>
        if buyer.wallet_balance < item.price then some .insufficientFunds
        else none

/-- Column attributes of the `Payment` model (src/models.py lines
155-170).  The model declares no relationship, and no other model's
relationship attaches a backref to `Payment`, so these columns are the
only attributes its declarative constructor accepts. -/
def paymentColumns : List String :=
  ["id", "amount", "payment_method", "status", "transaction_id",
   "completed_at", "created_at", "order_id"]

/-- The keyword arguments `buy_item` passes to `Payment(...)`
(src/app.py lines 498-504).  Note `order`, which is not an attribute of
the `Payment` model. -/
def paymentCtorKwargs : List String :=
  ["order", "amount", "payment_method", "status", "completed_at"]

/-- SQLAlchemy's declarative constructor accepts a keyword iff it names
an attribute of the model class; an unknown keyword raises `TypeError`. -/
def paymentCtorAccepts (kwargs : List String) : Bool :=
  kwargs.all (fun k => paymentColumns.contains k)

/-- The effect block of `buy_item` (src/app.py lines 489-512) AS
INTENDED: create the Order and Payment rows, debit the buyer, credit the
seller, mark the item sold, commit.  The two wallet writes are kept as
two sequential updates, exactly as in the source.  In the running code
this block is unreachable past the `Payment(...)` call (see `buy_item`);
it is modelled so that the intended settlement and the interleaving gap
the spec flags can be stated. -/
def buy_item_effects (db : DB) (buyerId itemId : Nat) : DB :=
  match findMarketItem db itemId with
  | none => db
  | some item =>
    let ord : Order :=
      { id := db.next_order_id, amount := item.price, status := "completed"
        buyer_id := buyerId, seller_id := item.seller_id, item_id := item.id }
    let pay : Payment :=
      { id := db.next_payment_id, amount := item.price, payment_method := "wallet"
        status := "completed", order_id := db.next_order_id }
    { db with
      users :=
        (db.users.map (fun u =>
          if u.id = buyerId then
            { u with wallet_balance := u.wallet_balance - item.price }
          else u)).map (fun u =>
            if u.id = item.seller_id then
              { u with wallet_balance := u.wallet_balance + item.price }
            else u)
      market_items := db.market_items.map (fun mi =>
        if mi.id = itemId then { mi with status := "sold" } else mi)
      orders := db.orders ++ [ord]
      payments := db.payments ++ [pay]
      next_order_id := db.next_order_id + 1
      next_payment_id := db.next_payment_id + 1 }

/-- `POST /marketplace/buy/<item_id>` (src/app.py lines 472-521): run the
precondition checks; if they all pass, enter the try block.  There
`Order(...)` is built from valid column kwargs, but `Payment(...)` is
called with the kwarg `order`, which the `Payment` model does not have,
so the constructor raises `TypeError`, the handler's `except` branch
rolls the session back (nothing had been added or flushed), and the
generic error flash is returned — before any wallet write, status
change or insert.  The intended effects would only run if the
constructor call were valid. -/
def buy_item (db : DB) (buyerId itemId : Nat) : Option Err × DB :=
  match buy_item_check db buyerId itemId with
  | some e => (some e, db)
  | none =>
    if paymentCtorAccepts paymentCtorKwargs then
      (none, buy_item_effects db buyerId itemId)
    else (some .internalError, db)

/-- One notification of the lost-item fan-out loop
(src/app.py lines 110-121). -/
def mkLostNotif (nid : Nat) (item : Item) (uid : Nat) : Notification :=
  { id := nid
    title := "New Lost Item Posted: " ++ item.title
    message := "A new lost item \x27" ++ item.title ++ "\x27 was posted in " ++
      item.location ++ ". Check if you\x27ve found something similar!"
    type := "lost_item"
    is_read := false
    user_id := uid
    item_id := some item.id }

/-- The `for user in users` loop body of
`create_notification_for_lost_item`: one row per recipient, ids allocated
sequentially by the database. -/
def fanout_notifs (nid : Nat) (item : Item) : List User → List Notification
  | [] => []
  | u :: rest => mkLostNotif nid item u.id :: fanout_notifs (nid + 1) item rest

/-- `create_notification_for_lost_item(item)` (src/app.py lines 106-124):
one notification for every user whose id differs from the poster's.
(The query filters only on `User.id != item.user_id`; the `active`
column is not consulted.) -/
def create_notification_for_lost_item (db : DB) (item : Item) : DB :=
  let others := db.users.filter (fun u => u.id != item.user_id)
  { db with
    notifications := db.notifications ++ fanout_notifs db.next_notification_id item others
    next_notification_id := db.next_notification_id + others.length }

/-- Form fields of `POST /post/<item_type>` and `POST /item/<id>/edit`.
A field absent from the request is the empty string (`request.form.get`
returns a falsy value).  Whitespace stripping of the text fields is not
modelled; no claim depends on it. -/
structure ItemForm where
  title : String
  description : String
  category : String
  location : String
  date_lost_found : String
  image : Option String
  deriving Repr, DecidableEq

inductive PostOutcome where
  | invalidType
  | missingField (field : String)
  | posted (itemId : String)
  deriving Repr, DecidableEq

/-- `POST /post/<item_type>` (src/app.py lines 265-317): reject a type
other than lost/found, reject a blank required field, otherwise insert
the item and, when the type is lost, run the notification fan-out.
`newId` stands for the fresh `generate_item_id()` value. -/
def post_item (db : DB) (item_type : String) (form : ItemForm) (userId : Nat)
    (newId : String) : PostOutcome × DB :=
  if item_type ≠ "lost" ∧ item_type ≠ "found" then (.invalidType, db)
  else if form.title = "" then (.missingField "title", db)
  else if form.description = "" then (.missingField "description", db)
  else if form.category = "" then (.missingField "category", db)
  else if form.location = "" then (.missingField "location", db)
  else
    let item : Item :=
      { id := newId, type := item_type, title := form.title
        description := form.description, category := form.category
        location := form.location, date_lost_found := form.date_lost_found
        image := form.image, status := "active", user_id := userId }
    let db1 := { db with items := db.items ++ [item] }
    let db2 := if item_type = "lost" then create_notification_for_lost_item db1 item else db1
    (.posted newId, db2)

/-- Lower-case view of a string, character by character. -/
def lc (s : String) : List Char :=
  s.data.map Char.toLower

/-- `charsStartWith pat l` — `pat` is an initial segment of `l`. -/
def charsStartWith : List Char → List Char → Bool
  | [], _ => true
  | _ :: _, [] => false
  | c :: cs, d :: ds => c == d && charsStartWith cs ds

/-- `charsContain pat l` — `pat` occurs contiguously somewhere in `l`. -/
def charsContain (pat : List Char) : List Char → Bool
  | [] => charsStartWith pat []
  | d :: ds => charsStartWith pat (d :: ds) || charsContain pat ds

/-- `anySuffix f l` — `f` holds of some suffix of `l` (including `l`
itself and `[]`). -/
def anySuffix (f : List Char → Bool) : List Char → Bool
  | [] => f []
  | t :: ts => f (t :: ts) || anySuffix f ts

/-- SQL LIKE pattern matching over case-folded characters: `%` matches
any sequence, `_` matches exactly one character, anything else matches
itself. -/
def sql_like_match : List Char → List Char → Bool
  | [], text => text.isEmpty
  | p :: ps, text =>
    if p = '%' then anySuffix (sql_like_match ps) text
    else
      match text with
      | [] => false
      | t :: ts => (p == '_' || p == t) && sql_like_match ps ts

/-- `column.ilike(f"%{pat}%")` as the source builds it: the user text is
interpolated into the pattern unescaped, so `%` and `_` inside it keep
their SQL wildcard meaning; the match is case-insensitive. -/
def ilike_contains (hay pat : String) : Bool :=
  sql_like_match ('%' :: (lc pat ++ ['%'])) (lc hay)

/-- The string contains neither SQL wildcard. -/
def no_sql_wildcards (l : List Char) : Bool :=
  l.all (fun c => !(c == '%') && !(c == '_'))

/-- `Item.query.filter_by(type=item_type, status="active")`. -/
def browse_base (db : DB) (item_type : String) : List Item :=
  db.items.filter (fun it => it.type == item_type && it.status == "active")

/-- `if category: query = query.filter(Item.category == category)`. -/
def browse_category (l : List Item) (category : String) : List Item :=
  if category ≠ "" then l.filter (fun it => it.category == category) else l

/-- `if location: query = query.filter(Item.location.ilike(...))`. -/
def browse_location (l : List Item) (location : String) : List Item :=
  if location ≠ "" then l.filter (fun it => ilike_contains it.location location) else l

/-- `if search: query = query.filter(or_(title/description/location ilike))`. -/
def browse_search (l : List Item) (search : String) : List Item :=
  if search ≠ "" then
    l.filter (fun it =>
      ilike_contains it.title search ||
      ilike_contains it.description search ||
      ilike_contains it.location search)
  else l

/-- `GET /browse/<item_type>` (src/app.py lines 319-344): active items of
the requested type, narrowed by each non-empty filter in source order.
The `order_by(date_posted.desc())` step only permutes the result and is
not modelled (`date_posted` is omitted from the record). -/
def browse_items (db : DB) (item_type category location search : String) :
    Option (List Item) :=
  if item_type ≠ "lost" ∧ item_type ≠ "found" then none
  else some (browse_search (browse_location (browse_category
    (browse_base db item_type) category) location) search)

/-- Form fields of `POST /register`; a missing field is `""`. -/
structure RegForm where
  username : String
  email : String
  password : String
  first_name : String
  last_name : String
  phone : Option String
  deriving Repr, DecidableEq

/-- Models werkzeug's `generate_password_hash(password)`: the stored
string is `method$salt$digest`, never the bare password.  The digest is
modelled abstractly by the password text itself; the claims only use
that the stored value embeds the salt and differs from the plaintext. -/
def generate_password_hash (salt password : String) : String :=
  "scrypt:32768:8:1$" ++ salt ++ "$" ++ password

/-- Models werkzeug's `check_password_hash(stored, password)`: split the
stored value on `$` and compare the digest part. -/
def check_password_hash (stored password : String) : Bool :=
  match stored.data.splitOn '$' with
  | [_, _, digest] => digest == password.data
  | _ => false

inductive RegOutcome where
  | missingFields
  | usernameTaken
  | emailTaken
  | ok (uid : Nat)
  deriving Repr, DecidableEq

/-- The `User(...)` row built by `register` (src/app.py lines 153-160);
`active` and `wallet_balance` take their column defaults. -/
def regUser (f : RegForm) (salt : String) (newId : Nat) : User :=
  { id := newId, username := f.username, email := f.email
    password_hash := generate_password_hash salt f.password
    first_name := f.first_name, last_name := f.last_name
    phone := f.phone, active := true, wallet_balance := 0 }

/-- `POST /register` (src/app.py lines 129-171): blank-field check, then
username-duplicate check, then email-duplicate check, then insert.
`salt` stands for the salt werkzeug draws for this request, `newId` for
the autoincrement id. -/
def register (db : DB) (f : RegForm) (salt : String) (newId : Nat) :
    RegOutcome × DB :=
  if f.username = "" ∨ f.email = "" ∨ f.password = "" ∨
      f.first_name = "" ∨ f.last_name = "" then (.missingFields, db)
  else if db.users.any (fun u => u.username == f.username) then (.usernameTaken, db)
  else if db.users.any (fun u => u.email == f.email) then (.emailTaken, db)
  else (.ok newId, { db with users := db.users ++ [regUser f salt newId] })

inductive LoginOutcome where
  | success (uid : Nat)
  | failure (msg : String)
  deriving Repr, DecidableEq

/-- `POST /login` (src/app.py lines 173-192): `filter_by(username=...)`,
then hash check; unknown user and wrong password share the same flash. -/
def login (db : DB) (username password : String) : LoginOutcome :=
  if username = "" ∨ password = "" then
    .failure "Please enter both username and password."
  else
    match db.users.find? (fun u => u.username == username) with
    | some u =>
      if check_password_hash u.password_hash password then .success u.id
      else .failure "Invalid username or password."
    | none => .failure "Invalid username or password."

/-- `POST /item/<item_id>/delete` (src/app.py lines 402-414):
`first_or_404` on `id == item_id AND user_id == caller`; on a hit the row
is deleted, otherwise the request 404s. -/
def delete_item (db : DB) (callerId : Nat) (itemId : String) : Option Err × DB :=
  match db.items.find? (fun it => it.id == itemId && it.user_id == callerId) with
  | none => (some .notFound, db)
  | some _ =>
    (none, { db with items := db.items.eraseP (fun it => it.id == itemId && it.user_id == callerId) })

/-- `POST /item/<item_id>/edit` (src/app.py lines 366-400): the same
owner-filtered `first_or_404`, then required-field checks, then the field
updates; `form.image = none` models a request without a valid upload, in
which case the stored image is kept. -/
def edit_item (db : DB) (callerId : Nat) (itemId : String) (form : ItemForm) :
    Option Err × DB :=
  match db.items.find? (fun it => it.id == itemId && it.user_id == callerId) with
  | none => (some .notFound, db)
  | some _ =>
    if form.title = "" then (some .validation, db)
    else if form.description = "" then (some .validation, db)
    else if form.category = "" then (some .validation, db)
    else if form.location = "" then (some .validation, db)
    else
      (none, { db with items := db.items.map (fun it =>
        if it.id == itemId && it.user_id == callerId then
          { it with
            title := form.title, description := form.description
            category := form.category, location := form.location
            date_lost_found := form.date_lost_found
            image := match form.image with | some f => some f | none => it.image }
        else it) })

/-- Column attributes of the `MarketItem` model (src/models.py lines
101-120), i.e. the names its declarative constructor accepts... -/
def marketItemColumns : List String :=
  ["id", "title", "description", "price", "condition", "category", "image",
   "additional_images", "status", "created_at", "updated_at", "seller_id"]

/-- ...plus the `seller` attribute contributed by the
`User.market_items` relationship's backref (src/models.py line 35). -/
def marketItemSettableAttrs : List String :=
  marketItemColumns ++ ["seller"]

/-- The keyword arguments `sell_item` passes to `MarketItem(...)`
(src/app.py lines 442-452). -/
def sellItemCtorKwargs : List String :=
  ["title", "description", "price", "type", "condition", "subject",
   "author", "image", "seller_id"]

/-- SQLAlchemy's declarative constructor accepts a keyword iff it names
an attribute of the model class; an unknown keyword raises `TypeError`. -/
def marketItemCtorAccepts (kwargs : List String) : Bool :=
  kwargs.all (fun k => marketItemSettableAttrs.contains k)

/-- Form fields of `POST /marketplace/sell`. -/
structure SellForm where
  title : String
  description : String
  price : Rat
  type : String
  condition : Option String
  subject : Option String
  author : Option String
  image : Option String
  deriving Repr, DecidableEq

/-- `POST /marketplace/sell` (src/app.py lines 427-465): construct a
`MarketItem` from the form.  The constructor call names the kwargs of
`sellItemCtorKwargs`; if the model accepted them the row would be
inserted, otherwise the `TypeError` lands in the handler's `except`
branch, the session is rolled back and an error flash is returned. -/
def sell_item (db : DB) (sellerId : Nat) (f : SellForm) (newId : Nat) :
    Option Err × DB :=
  if marketItemCtorAccepts sellItemCtorKwargs then
    let item : MarketItem :=
      { id := newId, title := f.title, description := f.description
        price := f.price, condition := f.condition.getD "", category := ""
        image := f.image, status := "available", seller_id := sellerId }
    (none, { db with market_items := db.market_items ++ [item] })
  else (some .internalError, db)

/-! ## Helper lemmas -/

theorem find?_map_of_pred {α : Type} (l : List α) (f : α → α) (p : α → Bool)
    (hf : ∀ a, p (f a) = p a) :
    (l.map f).find? p = Option.map f (l.find? p) := by
  induction l with
  | nil => rfl
  | cons a rest ih =>
    simp only [List.map_cons, List.find?_cons]
    rw [hf a]
    cases h : p a <;> simp [ih]

/-! ## C2 — purchase precondition order -/

/-- The error clauses of the claim hold in general: the preconditions of
`purchase(marketItemId, buyerId)` are checked in this exact order, first
failure wins: missing item → NotFoundError; item not available →
ConflictError; buyer is the seller → ValidationError; buyer balance
below price → InsufficientFundsError. -/
theorem buy_item_precondition_order (db : DB) (buyerId itemId : Nat) :
    (findMarketItem db itemId = none →
      buy_item db buyerId itemId = (some .notFound, db))
    ∧ (∀ item, findMarketItem db itemId = some item →
        item.status ≠ "available" →
        buy_item db buyerId itemId = (some .conflict, db))
    ∧ (∀ item, findMarketItem db itemId = some item →
        item.status = "available" → item.seller_id = buyerId →
        buy_item db buyerId itemId = (some .validation, db))
    ∧ (∀ item buyer, findMarketItem db itemId = some item →
        item.status = "available" → item.seller_id ≠ buyerId →
        findUser db buyerId = some buyer →
        buyer.wallet_balance < item.price →
        buy_item db buyerId itemId = (some .insufficientFunds, db)) := by
  refine ⟨?_, ?_, ?_, ?_⟩
  · intro h
    simp [buy_item, buy_item_check, h]
  · intro item h hs
    simp [buy_item, buy_item_check, h, hs]
  · intro item h hs hown
    simp [buy_item, buy_item_check, h, hs, hown]
  · intro item buyer h hs hown hb hlt
    simp [buy_item, buy_item_check, h, hs, hown, hb, hlt]

def wSeller : User :=
  { id := 1, username := "sam", email := "sam@campus.edu", password_hash := "x"
    first_name := "Sam", last_name := "Seller", phone := none, active := true
    wallet_balance := 0 }

def wBuyer : User :=
  { id := 2, username := "bea", email := "bea@campus.edu", password_hash := "x"
    first_name := "Bea", last_name := "Buyer", phone := none, active := true
    wallet_balance := 15 }

def wPoor : User :=
  { id := 3, username := "pat", email := "pat@campus.edu", password_hash := "x"
    first_name := "Pat", last_name := "Poor", phone := none, active := true
    wallet_balance := 4 }

def wItem : MarketItem :=
  { id := 1, title := "calculus book", description := "used", price := 10
    condition := "good", category := "Books", image := none
    status := "available", seller_id := 1 }

def wDB : DB :=
  { users := [wSeller, wBuyer, wPoor], items := [], notifications := []
    market_items := [wItem], orders := [], payments := []
    next_notification_id := 1, next_order_id := 1, next_payment_id := 1 }

def wDBSold : DB :=
  { wDB with market_items := [{ wItem with status := "sold" }] }

/-- C2.  The four error clauses behave exactly as claimed, in order:
missing item → NotFoundError; sold item → ConflictError; buyer = seller
→ ValidationError; short balance → InsufficientFundsError.  But the
final clause fails: when every precondition passes, the purchase does
NOT succeed — it ends in the generic error branch with the state
unchanged, because the `Payment(order=...)` constructor call in the
effect block is invalid and the handler rolls back. -/
theorem buy_item_error_order_eval :
    buy_item wDB 2 99 = (some .notFound, wDB)
    ∧ buy_item wDBSold 2 1 = (some .conflict, wDBSold)
    ∧ buy_item wDB 1 1 = (some .validation, wDB)
    ∧ buy_item wDB 3 1 = (some .insufficientFunds, wDB)
    ∧ buy_item wDB 2 1 = (some .internalError, wDB) :=
  ⟨(buy_item_precondition_order wDB 2 99).1 (by decide),
   (buy_item_precondition_order wDBSold 2 1).2.1 { wItem with status := "sold" }
     (by decide) (by decide),
   (buy_item_precondition_order wDB 1 1).2.2.1 wItem (by decide) rfl rfl,
   (buy_item_precondition_order wDB 3 1).2.2.2 wItem wPoor (by decide) rfl
     (by decide) (by decide) (by decide),
   rfl⟩

/-! ## C3 — insufficient funds leaves the state unchanged -/

/-- C3.  A purchase attempt by a buyer whose balance is below the price
fails with InsufficientFundsError and leaves the database untouched: the
item keeps its status, both wallets keep their values, and no Order or
Payment row is created. -/
theorem buy_item_insufficient_funds_unchanged (db : DB) (buyerId itemId : Nat)
    (item : MarketItem) (buyer : User)
    (hitem : findMarketItem db itemId = some item)
    (hstatus : item.status = "available")
    (hown : item.seller_id ≠ buyerId)
    (hbuyer : findUser db buyerId = some buyer)
    (hlt : buyer.wallet_balance < item.price) :
    buy_item db buyerId itemId = (some .insufficientFunds, db)
    ∧ (buy_item db buyerId itemId).2.market_items = db.market_items
    ∧ (buy_item db buyerId itemId).2.users = db.users
    ∧ (buy_item db buyerId itemId).2.orders = db.orders
    ∧ (buy_item db buyerId itemId).2.payments = db.payments := by
  have h : buy_item db buyerId itemId = (some .insufficientFunds, db) := by
    simp [buy_item, buy_item_check, hitem, hstatus, hown, hbuyer, hlt]
  exact ⟨h, by rw [h], by rw [h], by rw [h], by rw [h]⟩

theorem buy_item_insufficient_funds_unchanged_witness :
    buy_item wDB 3 1 = (some .insufficientFunds, wDB)
    ∧ (buy_item wDB 3 1).2.market_items = wDB.market_items
    ∧ (buy_item wDB 3 1).2.users = wDB.users
    ∧ (buy_item wDB 3 1).2.orders = wDB.orders
    ∧ (buy_item wDB 3 1).2.payments = wDB.payments :=
  buy_item_insufficient_funds_unchanged wDB 3 1 wItem wPoor (by decide) rfl
    (by decide) (by decide) (by decide)

theorem find?_key_map {α : Type} (l : List α) (f : α → α) (key : α → Nat)
    (hf : ∀ a, key (f a) = key a) (k : Nat) :
    (l.map f).find? (fun a => key a == k) = Option.map f (l.find? (fun a => key a == k)) :=
  find?_map_of_pred l f _ (fun a => by simp [hf])

/-! ## C1 — purchase settlement

The intended effect block satisfies the spec's settlement postconditions
(`buy_item_effects_spec` below), but the running handler never reaches
it: the `Payment(order=..., ...)` constructor call raises, so every
purchase whose preconditions pass ends in the generic error branch with
the database unchanged (`buy_item_payment_ctor_bug`). -/

/-- The intended effect block (were the `Payment` construction valid)
debits the buyer by the price, credits the seller by the price (their
combined balance is unchanged), marks the item sold, and appends exactly
one completed Order (amount = price) and exactly one completed wallet
Payment (amount = price) for this purchase. -/
theorem buy_item_effects_spec (db : DB) (buyerId itemId : Nat)
    (item : MarketItem) (buyer seller : User)
    (hitem : findMarketItem db itemId = some item)
    (hstatus : item.status = "available")
    (hown : item.seller_id ≠ buyerId)
    (hbuyer : findUser db buyerId = some buyer)
    (hseller : findUser db item.seller_id = some seller)
    (hle : item.price ≤ buyer.wallet_balance) :
    buy_item_check db buyerId itemId = none
    ∧ findUser (buy_item_effects db buyerId itemId) buyerId =
        some { buyer with wallet_balance := buyer.wallet_balance - item.price }
    ∧ findUser (buy_item_effects db buyerId itemId) item.seller_id =
        some { seller with wallet_balance := seller.wallet_balance + item.price }
    ∧ (buyer.wallet_balance - item.price) + (seller.wallet_balance + item.price)
        = buyer.wallet_balance + seller.wallet_balance
    ∧ findMarketItem (buy_item_effects db buyerId itemId) itemId =
        some { item with status := "sold" }
    ∧ (buy_item_effects db buyerId itemId).orders =
        db.orders ++ [{ id := db.next_order_id, amount := item.price
                        status := "completed", buyer_id := buyerId
                        seller_id := item.seller_id, item_id := item.id }]
    ∧ (buy_item_effects db buyerId itemId).payments =
        db.payments ++ [{ id := db.next_payment_id, amount := item.price
                          payment_method := "wallet", status := "completed"
                          order_id := db.next_order_id }]
    ∧ (db.orders.filter (fun o => o.item_id == itemId) = [] →
        ((buy_item_effects db buyerId itemId).orders.filter
          (fun o => o.item_id == itemId)).length = 1)
    ∧ (db.payments.filter (fun p => p.order_id == db.next_order_id) = [] →
        ((buy_item_effects db buyerId itemId).payments.filter
          (fun p => p.order_id == db.next_order_id)).length = 1) := by
  have hid : item.id = itemId := by simpa using List.find?_some hitem
  have hbid : buyer.id = buyerId := by simpa using List.find?_some hbuyer
  have hsid : seller.id = item.seller_id := by simpa using List.find?_some hseller
  have hcheck : buy_item_check db buyerId itemId = none := by
    simp [buy_item_check, hitem, hstatus, hown, hbuyer, not_lt.2 hle]
  have h1 : ∀ u : User,
      User.id (if u.id = buyerId then
        { u with wallet_balance := u.wallet_balance - item.price } else u) = u.id := by
    intro u; by_cases h : u.id = buyerId <;> simp [h]
  have h2 : ∀ u : User,
      User.id (if u.id = item.seller_id then
        { u with wallet_balance := u.wallet_balance + item.price } else u) = u.id := by
    intro u; by_cases h : u.id = item.seller_id <;> simp [h]
  have hmi : ∀ mi : MarketItem,
      MarketItem.id (if mi.id = itemId then { mi with status := "sold" } else mi) = mi.id := by
    intro mi; by_cases h : mi.id = itemId <;> simp [h]
  have husers : (buy_item_effects db buyerId itemId).users =
      ((db.users.map (fun u => if u.id = buyerId then
          { u with wallet_balance := u.wallet_balance - item.price } else u)).map
        (fun u => if u.id = item.seller_id then
          { u with wallet_balance := u.wallet_balance + item.price } else u)) := by
    simp [buy_item_effects, hitem]
  have hmarket : (buy_item_effects db buyerId itemId).market_items =
      db.market_items.map (fun mi => if mi.id = itemId then { mi with status := "sold" } else mi) := by
    simp [buy_item_effects, hitem]
  have horders : (buy_item_effects db buyerId itemId).orders =
      db.orders ++ [{ id := db.next_order_id, amount := item.price
                      status := "completed", buyer_id := buyerId
                      seller_id := item.seller_id, item_id := item.id }] := by
    simp [buy_item_effects, hitem]
  have hpayments : (buy_item_effects db buyerId itemId).payments =
      db.payments ++ [{ id := db.next_payment_id, amount := item.price
                        payment_method := "wallet", status := "completed"
                        order_id := db.next_order_id }] := by
    simp [buy_item_effects, hitem]
  refine ⟨hcheck, ?_, ?_, by ring, ?_, horders, hpayments, ?_, ?_⟩
  · rw [findUser, husers, find?_key_map _ _ User.id h2 buyerId,
      find?_key_map _ _ User.id h1 buyerId]
    rw [findUser] at hbuyer
    rw [hbuyer]
    simp [hbid, Ne.symm hown]
  · rw [findUser, husers, find?_key_map _ _ User.id h2 item.seller_id,
      find?_key_map _ _ User.id h1 item.seller_id]
    rw [findUser] at hseller
    rw [hseller]
    simp [hsid, hown]
  · rw [findMarketItem, hmarket, find?_key_map _ _ MarketItem.id hmi itemId]
    rw [findMarketItem] at hitem
    rw [hitem]
    simp [hid]
  · intro hempty
    rw [horders, List.filter_append, hempty]
    simp [hid]
  · intro hempty
    rw [hpayments, List.filter_append, hempty]
    simp

theorem qsub_15_10 : (15 : Rat) - 10 = 5 := by norm_num

theorem buy_item_effects_spec_witness :
    buy_item_check wDB 2 1 = none
    ∧ findUser (buy_item_effects wDB 2 1) 2 = some { wBuyer with wallet_balance := 5 }
    ∧ findUser (buy_item_effects wDB 2 1) 1 = some { wSeller with wallet_balance := 0 + 10 }
    ∧ (wBuyer.wallet_balance - wItem.price) + (wSeller.wallet_balance + wItem.price)
        = wBuyer.wallet_balance + wSeller.wallet_balance
    ∧ findMarketItem (buy_item_effects wDB 2 1) 1 = some { wItem with status := "sold" }
    ∧ (buy_item_effects wDB 2 1).orders =
        [{ id := 1, amount := 10, status := "completed", buyer_id := 2
           seller_id := 1, item_id := 1 }]
    ∧ (buy_item_effects wDB 2 1).payments =
        [{ id := 1, amount := 10, payment_method := "wallet", status := "completed"
           order_id := 1 }]
    ∧ ((buy_item_effects wDB 2 1).orders.filter (fun o => o.item_id == 1)).length = 1
    ∧ ((buy_item_effects wDB 2 1).payments.filter (fun p => p.order_id == 1)).length = 1 := by
  obtain ⟨h1, h2, h3, hsum, h5, h6, h7, h8, h9⟩ :=
    buy_item_effects_spec wDB 2 1 wItem wBuyer wSeller (by decide) rfl (by decide)
      (by decide) (by decide) (by decide)
  refine ⟨h1, ?_, ?_, hsum, h5, ?_, ?_, ?_, ?_⟩
  · simpa [wBuyer, wItem, qsub_15_10] using h2
  · simpa [wSeller, wItem] using h3
  · simpa [wDB, wItem] using h6
  · simpa [wDB, wItem] using h7
  · exact h8 rfl
  · exact h9 rfl

/-- C1.  The scenario of the claim — item price 10, buyer balance 15,
distinct seller — passes every precondition, yet the purchase request
fails with the generic error and changes nothing: no wallet moves, the
item stays available, and no Order or Payment row is created, because
`Payment` is constructed with the invalid kwarg `order` and the handler
rolls back.  The claimed settlement (buyer at 5, seller up 10, item
sold, one Order/Payment pair) never happens. -/
theorem buy_item_payment_ctor_bug :
    buy_item_check wDB 2 1 = none
    ∧ paymentCtorAccepts paymentCtorKwargs = false
    ∧ buy_item wDB 2 1 = (some Err.internalError, wDB)
    ∧ (buy_item wDB 2 1).2.orders = []
    ∧ (buy_item wDB 2 1).2.payments = []
    ∧ findUser (buy_item wDB 2 1).2 2 = some wBuyer
    ∧ findUser (buy_item wDB 2 1).2 1 = some wSeller
    ∧ findMarketItem (buy_item wDB 2 1).2 1 = some wItem :=
  ⟨by decide, rfl, rfl, rfl, rfl, by decide, by decide, by decide⟩

/-! ## C5 — two interleaved purchases of one item -/

def rSeller : User :=
  { id := 1, username := "sal", email := "sal@campus.edu", password_hash := "x"
    first_name := "Sal", last_name := "Seller", phone := none, active := true
    wallet_balance := 0 }

def rAlice : User :=
  { id := 2, username := "ann", email := "ann@campus.edu", password_hash := "x"
    first_name := "Ann", last_name := "Able", phone := none, active := true
    wallet_balance := 20 }

def rBob : User :=
  { id := 3, username := "bob", email := "bob@campus.edu", password_hash := "x"
    first_name := "Bob", last_name := "Baker", phone := none, active := true
    wallet_balance := 20 }

def rItem : MarketItem :=
  { id := 1, title := "lamp", description := "desk lamp", price := 10
    condition := "good", category := "Other", image := none
    status := "available", seller_id := 1 }

def raceDB : DB :=
  { users := [rSeller, rAlice, rBob], items := [], notifications := []
    market_items := [rItem], orders := [], payments := []
    next_notification_id := 1, next_order_id := 1, next_payment_id := 1 }

/-- C5.  Against one available item with two funded buyers the claimed
outcome — exactly one success, the other rejected with ConflictError —
never occurs.  First, in the code as it runs, NO attempt succeeds: both
purchase requests pass all preconditions and then die in the generic
error branch (the invalid `Payment(order=...)` construction), leaving
the item available and zero Orders.  Second, even with that slip
repaired so the intended effect block runs, the handler has no isolation
between its precondition reads and its effect writes: serially the
second buyer would indeed get the ConflictError, but in the interleaving
check(2); check(3); effects(2); effects(3) — both requests read the item
while it is still available, then both commit — both buyers succeed and
the store ends up with two completed Orders for the single listing,
which is exactly the gap the spec flags. -/
theorem buy_item_concurrency_outcome :
    buy_item raceDB 2 1 = (some .internalError, raceDB)
    ∧ buy_item raceDB 3 1 = (some .internalError, raceDB)
    ∧ (buy_item raceDB 2 1).2.orders = []
    ∧ buy_item_check raceDB 2 1 = none
    ∧ buy_item_check raceDB 3 1 = none
    ∧ buy_item_check (buy_item_effects raceDB 2 1) 3 1 = some .conflict
    ∧ ((buy_item_effects (buy_item_effects raceDB 2 1) 3 1).orders.filter
        (fun o => o.item_id == 1 && o.status == "completed")).length = 2 :=
  ⟨rfl, rfl, rfl, by decide, by decide, rfl, rfl⟩

/-! ## C6 — the marketplace sell operation can never succeed -/

/-- C6.  `sell_item` invokes the `MarketItem` constructor with the
keywords `type`, `subject` and `author`, none of which is an attribute of
the model, so the constructor raises, the handler rolls back, and every
sell request ends in the error branch with the store unchanged: a listing
can never be created. -/
theorem sell_item_always_fails (db : DB) (sellerId : Nat) (f : SellForm) (newId : Nat) :
    sell_item db sellerId f newId = (some .internalError, db)
    ∧ (sell_item db sellerId f newId).2.market_items = db.market_items
    ∧ marketItemCtorAccepts sellItemCtorKwargs = false :=
  ⟨rfl, rfl, rfl⟩

/-! ## C4 — notification fan-out on a lost-item post -/

theorem fanout_notifs_user_ids (nid : Nat) (item : Item) (us : List User) :
    (fanout_notifs nid item us).map (fun n => n.user_id) = us.map (fun u => u.id) := by
  induction us generalizing nid with
  | nil => rfl
  | cons u rest ih => simp [fanout_notifs, mkLostNotif, ih]

theorem fanout_notifs_length (nid : Nat) (item : Item) (us : List User) :
    (fanout_notifs nid item us).length = us.length := by
  induction us generalizing nid with
  | nil => rfl
  | cons u rest ih => simp [fanout_notifs, ih]

theorem fanout_notifs_mem (nid : Nat) (item : Item) (us : List User) :
    ∀ n ∈ fanout_notifs nid item us, n.type = "lost_item" ∧ n.item_id = some item.id := by
  induction us generalizing nid with
  | nil => simp [fanout_notifs]
  | cons u rest ih =>
    intro n hn
    rcases (by simpa [fanout_notifs] using hn : n = mkLostNotif nid item u.id ∨
        n ∈ fanout_notifs (nid + 1) item rest) with h | h
    · subst h; exact ⟨rfl, rfl⟩
    · exact ih _ n h

theorem length_filter_ne_of_unique (l : List User) (uid : Nat)
    (h : (l.filter (fun u => u.id == uid)).length = 1) :
    (l.filter (fun u => u.id != uid)).length = l.length - 1 := by
  have key : l.length = (l.filter (fun u => u.id == uid)).length
      + (l.filter (fun u => !(u.id == uid))).length :=
    List.length_eq_length_filter_add _
  have hb : l.filter (fun u => u.id != uid) = l.filter (fun u => !(u.id == uid)) := by
    simp [bne]
  rw [hb]
  omega

def c4Poster : User :=
  { id := 1, username := "pia", email := "pia@campus.edu", password_hash := "x"
    first_name := "Pia", last_name := "Poster", phone := none, active := true
    wallet_balance := 0 }

def c4Active : User :=
  { id := 2, username := "ada", email := "ada@campus.edu", password_hash := "x"
    first_name := "Ada", last_name := "Active", phone := none, active := true
    wallet_balance := 0 }

def c4Inactive : User :=
  { id := 3, username := "ian", email := "ian@campus.edu", password_hash := "x"
    first_name := "Ian", last_name := "Idle", phone := none, active := false
    wallet_balance := 0 }

def c4DB : DB :=
  { users := [c4Poster, c4Active, c4Inactive], items := [], notifications := []
    market_items := [], orders := [], payments := []
    next_notification_id := 1, next_order_id := 1, next_payment_id := 1 }

def c4Form : ItemForm :=
  { title := "iPhone 13", description := "Lost at the mall", category := "Electronics"
    location := "Shopping Mall", date_lost_found := "", image := none }

/-- C4 counterexample.  With three users — the poster (1), one active
other user (2) and one inactive other user (3) — posting a lost item
creates notifications for users 2 AND 3: the fan-out query filters only
on `User.id != poster`, never on `active`.  So the created notifications
are not "one for every active user other than the poster": their
recipient list [2, 3] differs from the active-others list [2]. -/
theorem post_item_fanout_active_counterexample :
    c4DB.users.length = 3
    ∧ ((post_item c4DB "lost" c4Form 1 "itm00001").2.notifications.map
        (fun n => n.user_id)) = [2, 3]
    ∧ (c4DB.users.filter (fun u => u.active && u.id != 1)).map (fun u => u.id) = [2]
    ∧ ((post_item c4DB "lost" c4Form 1 "itm00001").2.notifications.map
        (fun n => n.user_id)) ≠
      (c4DB.users.filter (fun u => u.active && u.id != 1)).map (fun u => u.id) := by
  refine ⟨rfl, by decide, by decide, by decide⟩

/-- C4 (amended).  Posting a lost item creates exactly one notification
per user other than the poster — regardless of the `active` flag — so
(N-1) notifications when the poster is one of the N users; each carries
type tag lost_item and references the posted item; posting a found item
creates none. -/
theorem post_item_fanout (db : DB) (form : ItemForm) (userId : Nat) (newId : String)
    (ht : form.title ≠ "") (hd : form.description ≠ "") (hc : form.category ≠ "")
    (hl : form.location ≠ "") :
    (∃ notifs,
      (post_item db "lost" form userId newId).2.notifications = db.notifications ++ notifs
      ∧ notifs.map (fun n => n.user_id)
          = (db.users.filter (fun u => u.id != userId)).map (fun u => u.id)
      ∧ notifs.length = (db.users.filter (fun u => u.id != userId)).length
      ∧ ((db.users.filter (fun u => u.id == userId)).length = 1 →
          notifs.length = db.users.length - 1)
      ∧ ∀ n ∈ notifs, n.type = "lost_item" ∧ n.item_id = some newId)
    ∧ (post_item db "found" form userId newId).2.notifications = db.notifications := by
  constructor
  · refine ⟨fanout_notifs db.next_notification_id
      { id := newId, type := "lost", title := form.title
        description := form.description, category := form.category
        location := form.location, date_lost_found := form.date_lost_found
        image := form.image, status := "active", user_id := userId }
      (db.users.filter (fun u => u.id != userId)), ?_, ?_, ?_, ?_, ?_⟩
    · simp [post_item, ht, hd, hc, hl, create_notification_for_lost_item]
    · rw [fanout_notifs_user_ids]
    · rw [fanout_notifs_length]
    · intro h1
      rw [fanout_notifs_length]
      exact length_filter_ne_of_unique _ _ h1
    · intro n hn
      simpa using fanout_notifs_mem _ _ _ n hn
  · simp [post_item, ht, hd, hc, hl]

theorem post_item_fanout_witness :
    (∃ notifs,
      (post_item c4DB "lost" c4Form 1 "itm00001").2.notifications
          = c4DB.notifications ++ notifs
      ∧ notifs.map (fun n => n.user_id)
          = (c4DB.users.filter (fun u => u.id != 1)).map (fun u => u.id)
      ∧ notifs.length = (c4DB.users.filter (fun u => u.id != 1)).length
      ∧ ((c4DB.users.filter (fun u => u.id == 1)).length = 1 →
          notifs.length = c4DB.users.length - 1)
      ∧ ∀ n ∈ notifs, n.type = "lost_item" ∧ n.item_id = some "itm00001")
    ∧ (post_item c4DB "found" c4Form 1 "itm00001").2.notifications = c4DB.notifications :=
  post_item_fanout c4DB c4Form 1 "itm00001" (by decide) (by decide) (by decide) (by decide)

/-! ## C7 — browse filters -/

theorem mem_filter_if {α : Type} (c : Prop) [Decidable c] (l : List α) (p : α → Bool) (a : α) :
    (a ∈ if c then l.filter p else l) ↔ (a ∈ l ∧ (c → p a = true)) := by
  by_cases hc : c
  · simp [hc, List.mem_filter]
  · simp [hc]

theorem anySuffix_true_of_nil (f : List Char → Bool) (h : f [] = true) :
    ∀ s, anySuffix f s = true := by
  intro s
  induction s with
  | nil => simpa [anySuffix] using h
  | cons t ts ih => simp [anySuffix, ih]

theorem sql_like_match_lone_star : ∀ s, sql_like_match ['%'] s = true := by
  intro s
  have h0 : sql_like_match [] [] = true := rfl
  simpa [sql_like_match] using anySuffix_true_of_nil (sql_like_match []) h0 s

theorem like_append_star (pat : List Char) (h : no_sql_wildcards pat = true) :
    ∀ s, sql_like_match (pat ++ ['%']) s = charsStartWith pat s := by
  induction pat with
  | nil =>
    intro s
    simpa [charsStartWith] using sql_like_match_lone_star s
  | cons p ps ih =>
    have hp : (!(p == '%') && !(p == '_')) = true ∧ no_sql_wildcards ps = true := by
      simpa [no_sql_wildcards, List.all_cons] using h
    have hp1 : ¬ (p = '%') := by
      have := hp.1
      simp only [Bool.and_eq_true, Bool.not_eq_true', beq_eq_false_iff_ne] at this
      exact this.1
    have hp2 : (p == '_') = false := by
      have := hp.1
      simp only [Bool.and_eq_true, Bool.not_eq_true'] at this
      exact this.2
    intro s
    cases s with
    | nil => simp [sql_like_match, charsStartWith, hp1]
    | cons t ts =>
      simp [sql_like_match, charsStartWith, hp1, hp2, ih hp.2 ts]

/-- For a filter string free of SQL wildcards, the `ilike` test the
source performs coincides with the case-insensitive substring test. -/
theorem ilike_contains_no_wildcards (hay pat : String)
    (h : no_sql_wildcards (lc pat) = true) :
    ilike_contains hay pat = charsContain (lc pat) (lc hay) := by
  have hall : ∀ s, anySuffix (sql_like_match (lc pat ++ ['%'])) s
      = charsContain (lc pat) s := by
    intro s
    induction s with
    | nil => simp [anySuffix, charsContain, like_append_star _ h]
    | cons d ds ih => simp [anySuffix, charsContain, like_append_star _ h, ih]
  simpa [ilike_contains, sql_like_match] using hall (lc hay)

/-- C7 (amended).  For filter strings free of the SQL wildcards `%` and
`_`, browsing returns exactly the items of the requested type with
status active that satisfy every supplied filter: exact category match,
case-insensitive substring match on location, and case-insensitive
substring match of the search text against title, description or
location.  (The source interpolates the filter text into an unescaped
`%...%` ILIKE pattern, so a `%` or `_` in the filter acts as a wildcard
rather than as a literal character — see the counterexample.) -/
theorem browse_items_membership (db : DB) (t category location search : String)
    (it : Item) (ht : t = "lost" ∨ t = "found")
    (hloc : no_sql_wildcards (lc location) = true)
    (hsearch : no_sql_wildcards (lc search) = true) :
    ∃ res, browse_items db t category location search = some res
      ∧ (it ∈ res ↔
          it ∈ db.items ∧ it.type = t ∧ it.status = "active"
          ∧ (category ≠ "" → it.category = category)
          ∧ (location ≠ "" → charsContain (lc location) (lc it.location) = true)
          ∧ (search ≠ "" → (charsContain (lc search) (lc it.title)
              || charsContain (lc search) (lc it.description)
              || charsContain (lc search) (lc it.location)) = true)) := by
  have hnot : ¬ (t ≠ "lost" ∧ t ≠ "found") := by
    rcases ht with h | h <;> simp [h]
  refine ⟨browse_search (browse_location (browse_category
      (browse_base db t) category) location) search, ?_, ?_⟩
  · unfold browse_items
    rw [if_neg hnot]
  · unfold browse_search browse_location browse_category browse_base
    rw [mem_filter_if, mem_filter_if, mem_filter_if]
    simp only [List.mem_filter, Bool.and_eq_true, beq_iff_eq,
      ilike_contains_no_wildcards _ location hloc,
      ilike_contains_no_wildcards _ search hsearch]
    tauto

def c7Lost : Item :=
  { id := "itm00001", type := "lost", title := "iPhone 13"
    description := "Lost my iPhone at the Mall yesterday", category := "Electronics"
    location := "Shopping Mall", date_lost_found := "", image := none
    status := "active", user_id := 1 }

def c7Keys : Item :=
  { id := "itm00002", type := "lost", title := "Car Keys"
    description := "red keychain", category := "Keys"
    location := "Parking Lot", date_lost_found := "", image := none
    status := "active", user_id := 1 }

def c7DB : DB :=
  { users := [], items := [c7Lost, c7Keys], notifications := []
    market_items := [], orders := [], payments := []
    next_notification_id := 1, next_order_id := 1, next_payment_id := 1 }

theorem browse_items_membership_witness :
    (∃ res, browse_items c7DB "lost" "" "" "mall" = some res
      ∧ (c7Lost ∈ res ↔
          c7Lost ∈ c7DB.items ∧ c7Lost.type = "lost" ∧ c7Lost.status = "active"
          ∧ ("" ≠ "" → c7Lost.category = "")
          ∧ ("" ≠ "" → charsContain (lc "") (lc c7Lost.location) = true)
          ∧ ("mall" ≠ "" → (charsContain (lc "mall") (lc c7Lost.title)
              || charsContain (lc "mall") (lc c7Lost.description)
              || charsContain (lc "mall") (lc c7Lost.location)) = true)))
    ∧ (∃ res, browse_items c7DB "lost" "Electronics" "" "" = some res
      ∧ (c7Keys ∈ res ↔
          c7Keys ∈ c7DB.items ∧ c7Keys.type = "lost" ∧ c7Keys.status = "active"
          ∧ ("Electronics" ≠ "" → c7Keys.category = "Electronics")
          ∧ ("" ≠ "" → charsContain (lc "") (lc c7Keys.location) = true)
          ∧ ("" ≠ "" → (charsContain (lc "") (lc c7Keys.title)
              || charsContain (lc "") (lc c7Keys.description)
              || charsContain (lc "") (lc c7Keys.location)) = true))) :=
  ⟨browse_items_membership c7DB "lost" "" "" "mall" c7Lost (Or.inl rfl) rfl (by decide),
   browse_items_membership c7DB "lost" "Electronics" "" "" c7Keys (Or.inl rfl) rfl rfl⟩

/-- C7 counterexample.  The filter text is interpolated into the ILIKE
pattern unescaped, so wildcards in it are live: browsing with the
location filter `Sho%Mall` returns the item located at `Shopping Mall`,
although `Sho%Mall` does not appear case-insensitively as a substring of
`Shopping Mall` — the claimed substring reading of the filters is wrong
for filter strings containing `%` or `_`. -/
theorem browse_items_wildcard_counterexample :
    (∃ res, browse_items c7DB "lost" "" "Sho%Mall" "" = some res ∧ c7Lost ∈ res)
    ∧ charsContain (lc "Sho%Mall") (lc c7Lost.location) = false :=
  ⟨⟨_, rfl, by decide⟩, by decide⟩

/-! ## C8 — registration rules -/

theorem generate_password_hash_ne (salt password : String) :
    generate_password_hash salt password ≠ password := by
  intro h
  have hlen := congrArg String.length h
  have h17 : ("scrypt:32768:8:1$" : String).length = 17 := rfl
  have hd : ("$" : String).length = 1 := rfl
  rw [generate_password_hash] at hlen
  simp only [String.length_append, h17, hd] at hlen
  omega

/-- C8.  Registration fails with a validation outcome and creates no user
when a required field is blank, when the username is taken, or when the
email is taken (so a second registration with the same username or email
fails); otherwise it creates exactly one User whose stored password is
the salted hash, not the plaintext. -/
theorem register_rules (db : DB) (f : RegForm) (salt : String) (newId : Nat) :
    ((f.username = "" ∨ f.email = "" ∨ f.password = "" ∨ f.first_name = "" ∨
        f.last_name = "") →
      register db f salt newId = (.missingFields, db))
    ∧ (¬(f.username = "" ∨ f.email = "" ∨ f.password = "" ∨ f.first_name = "" ∨
          f.last_name = "") →
        db.users.any (fun u => u.username == f.username) = true →
      register db f salt newId = (.usernameTaken, db))
    ∧ (¬(f.username = "" ∨ f.email = "" ∨ f.password = "" ∨ f.first_name = "" ∨
          f.last_name = "") →
        db.users.any (fun u => u.username == f.username) = false →
        db.users.any (fun u => u.email == f.email) = true →
      register db f salt newId = (.emailTaken, db))
    ∧ (¬(f.username = "" ∨ f.email = "" ∨ f.password = "" ∨ f.first_name = "" ∨
          f.last_name = "") →
        db.users.any (fun u => u.username == f.username) = false →
        db.users.any (fun u => u.email == f.email) = false →
      register db f salt newId
          = (.ok newId, { db with users := db.users ++ [regUser f salt newId] })
        ∧ (regUser f salt newId).password_hash = generate_password_hash salt f.password
        ∧ (regUser f salt newId).password_hash ≠ f.password)
    ∧ (¬(f.username = "" ∨ f.email = "" ∨ f.password = "" ∨ f.first_name = "" ∨
          f.last_name = "") →
        db.users.any (fun u => u.username == f.username) = false →
        db.users.any (fun u => u.email == f.email) = false →
        ∀ f2 salt2 id2,
          ¬(f2.username = "" ∨ f2.email = "" ∨ f2.password = "" ∨
              f2.first_name = "" ∨ f2.last_name = "") →
          f2.username = f.username →
          register (register db f salt newId).2 f2 salt2 id2
            = (.usernameTaken, (register db f salt newId).2))
    ∧ (¬(f.username = "" ∨ f.email = "" ∨ f.password = "" ∨ f.first_name = "" ∨
          f.last_name = "") →
        db.users.any (fun u => u.username == f.username) = false →
        db.users.any (fun u => u.email == f.email) = false →
        ∀ f2 salt2 id2,
          ¬(f2.username = "" ∨ f2.email = "" ∨ f2.password = "" ∨
              f2.first_name = "" ∨ f2.last_name = "") →
          f2.email = f.email →
          db.users.any (fun u => u.username == f2.username) = false →
          f2.username ≠ f.username →
          register (register db f salt newId).2 f2 salt2 id2
            = (.emailTaken, (register db f salt newId).2)) := by
  refine ⟨?_, ?_, ?_, ?_, ?_, ?_⟩
  · intro hb
    simp [register, hb]
  · intro hb hu
    simp [register, hb, hu]
  · intro hb hu he
    simp [register, hb, hu, he]
  · intro hb hu he
    exact ⟨by simp [register, hb, hu, he], rfl, generate_password_hash_ne salt f.password⟩
  · intro hb hu he f2 salt2 id2 hb2 huser
    have hreg : register db f salt newId
        = (.ok newId, { db with users := db.users ++ [regUser f salt newId] }) := by
      simp [register, hb, hu, he]
    rw [hreg]
    push_neg at hb hb2
    simp [register, List.any_append, regUser, huser, hu, hb.1, hb2.2.1,
      hb2.2.2.1, hb2.2.2.2.1, hb2.2.2.2.2]
  · intro hb hu he f2 salt2 id2 hb2 hemail hu2 hne
    have hreg : register db f salt newId
        = (.ok newId, { db with users := db.users ++ [regUser f salt newId] }) := by
      simp [register, hb, hu, he]
    rw [hreg]
    push_neg at hb hb2
    simp [register, List.any_append, regUser, hemail, hu2, Ne.symm hne, he,
      hb.2.1, hb2.1, hb2.2.2.1, hb2.2.2.2.1, hb2.2.2.2.2]

def regDB0 : DB :=
  { users := [], items := [], notifications := [], market_items := []
    orders := [], payments := [], next_notification_id := 1
    next_order_id := 1, next_payment_id := 1 }

def regBlank : RegForm :=
  { username := "", email := "x@y", password := "p", first_name := "A"
    last_name := "B", phone := none }

def regAnn : RegForm :=
  { username := "ann", email := "ann@campus.edu", password := "hunter2"
    first_name := "Ann", last_name := "Able", phone := none }

def regAnnDupName : RegForm :=
  { username := "ann", email := "other@campus.edu", password := "pw2"
    first_name := "An", last_name := "Other", phone := none }

def regAnnDupMail : RegForm :=
  { username := "bob", email := "ann@campus.edu", password := "pw3"
    first_name := "Bob", last_name := "Baker", phone := none }

theorem register_rules_witness :
    register regDB0 regBlank "s0" 1 = (.missingFields, regDB0)
    ∧ (register regDB0 regAnn "s1" 1
        = (.ok 1, { regDB0 with users := regDB0.users ++ [regUser regAnn "s1" 1] })
      ∧ (regUser regAnn "s1" 1).password_hash = generate_password_hash "s1" regAnn.password
      ∧ (regUser regAnn "s1" 1).password_hash ≠ regAnn.password)
    ∧ register (register regDB0 regAnn "s1" 1).2 regAnnDupName "s2" 2
        = (.usernameTaken, (register regDB0 regAnn "s1" 1).2)
    ∧ register (register regDB0 regAnn "s1" 1).2 regAnnDupMail "s3" 2
        = (.emailTaken, (register regDB0 regAnn "s1" 1).2) :=
  ⟨(register_rules regDB0 regBlank "s0" 1).1 (Or.inl rfl),
   (register_rules regDB0 regAnn "s1" 1).2.2.2.1 (by decide) rfl rfl,
   (register_rules regDB0 regAnn "s1" 1).2.2.2.2.1 (by decide) rfl rfl
     regAnnDupName "s2" 2 (by decide) rfl,
   (register_rules regDB0 regAnn "s1" 1).2.2.2.2.2 (by decide) rfl rfl
     regAnnDupMail "s3" 2 (by decide) rfl rfl (by decide)⟩

/-! ## C9 — login does not reveal whether a username exists -/

/-- C9.  A login attempt with an unknown username and a login attempt
with a known username but non-matching password produce identical
observable outcomes: the same generic failure message and no session. -/
theorem login_indistinguishable_failures (db : DB) (u1 p1 u2 p2 : String) (usr : User)
    (hu1 : u1 ≠ "") (hp1 : p1 ≠ "") (hu2 : u2 ≠ "") (hp2 : p2 ≠ "")
    (hnone : db.users.find? (fun u => u.username == u1) = none)
    (hsome : db.users.find? (fun u => u.username == u2) = some usr)
    (hbad : check_password_hash usr.password_hash p2 = false) :
    login db u1 p1 = login db u2 p2
    ∧ login db u1 p1 = .failure "Invalid username or password."
    ∧ (∀ uid, login db u1 p1 ≠ .success uid)
    ∧ (∀ uid, login db u2 p2 ≠ .success uid) := by
  have h1 : login db u1 p1 = .failure "Invalid username or password." := by
    simp [login, hu1, hp1, hnone]
  have h2 : login db u2 p2 = .failure "Invalid username or password." := by
    simp [login, hu2, hp2, hsome, hbad]
  exact ⟨h1.trans h2.symm, h1, fun uid => by simp [h1], fun uid => by simp [h2]⟩

def c9Ann : User :=
  { id := 1, username := "ann", email := "ann@campus.edu"
    password_hash := generate_password_hash "s1" "hunter2"
    first_name := "Ann", last_name := "Able", phone := none, active := true
    wallet_balance := 0 }

def c9DB : DB :=
  { users := [c9Ann], items := [], notifications := [], market_items := []
    orders := [], payments := [], next_notification_id := 1
    next_order_id := 1, next_payment_id := 1 }

theorem login_indistinguishable_failures_witness :
    login c9DB "ghost" "whatever" = login c9DB "ann" "wrong"
    ∧ login c9DB "ghost" "whatever" = .failure "Invalid username or password."
    ∧ (∀ uid, login c9DB "ghost" "whatever" ≠ .success uid)
    ∧ (∀ uid, login c9DB "ann" "wrong" ≠ .success uid) :=
  login_indistinguishable_failures c9DB "ghost" "whatever" "ann" "wrong" c9Ann
    (by decide) (by decide) (by decide) (by decide) (by decide) (by decide) (by decide)

/-! ## C10 — edit/delete by a non-owner -/

def c10Owner : User :=
  { id := 1, username := "own", email := "own@campus.edu", password_hash := "x"
    first_name := "Oli", last_name := "Owner", phone := none, active := true
    wallet_balance := 0 }

def c10Other : User :=
  { id := 2, username := "oth", email := "oth@campus.edu", password_hash := "x"
    first_name := "Ona", last_name := "Other", phone := none, active := true
    wallet_balance := 0 }

def c10Item : Item :=
  { id := "itm00001", type := "lost", title := "Wallet"
    description := "black leather", category := "Other"
    location := "Library", date_lost_found := "", image := none
    status := "active", user_id := 1 }

def c10DB : DB :=
  { users := [c10Owner, c10Other], items := [c10Item], notifications := []
    market_items := [], orders := [], payments := []
    next_notification_id := 1, next_order_id := 1, next_payment_id := 1 }

def c10Form : ItemForm :=
  { title := "Wallet", description := "edited", category := "Other"
    location := "Library", date_lost_found := "", image := none }

/-- C10 counterexample.  User 2 calls delete/edit on the item owned by
user 1: both routes answer with the 404/NotFound outcome — observably the
very same result as calling them on a nonexistent item id — not with a
distinct AuthorizationError.  (`first_or_404` filters the lookup by
`user_id == caller`, so non-ownership and non-existence coincide.) -/
theorem item_mutation_error_kind_counterexample :
    delete_item c10DB 2 "itm00001" = (some Err.notFound, c10DB)
    ∧ edit_item c10DB 2 "itm00001" c10Form = (some Err.notFound, c10DB)
    ∧ delete_item c10DB 2 "missing" = (some Err.notFound, c10DB)
    ∧ edit_item c10DB 2 "missing" c10Form = (some Err.notFound, c10DB)
    ∧ Err.notFound ≠ Err.authorization :=
  ⟨rfl, rfl, rfl, rfl, by decide⟩

/-- C10 (amended).  A delete or edit request by a caller who owns no item
of the given id fails with the NotFound (HTTP 404) outcome — the code
enforces ownership by filtering the lookup to the caller's own items, so
the failure is indistinguishable from a missing item — and the database
is unchanged: the item is not deleted and none of its fields change. -/
theorem item_mutation_requires_ownership (db : DB) (callerId : Nat) (itemId : String)
    (form : ItemForm)
    (hnotown : ∀ j ∈ db.items, j.id = itemId → j.user_id ≠ callerId) :
    delete_item db callerId itemId = (some Err.notFound, db)
    ∧ edit_item db callerId itemId form = (some Err.notFound, db) := by
  have hfind : db.items.find? (fun it => it.id == itemId && it.user_id == callerId) = none := by
    rw [List.find?_eq_none]
    intro j hj
    simp only [Bool.and_eq_true, beq_iff_eq, not_and]
    exact fun hid => hnotown j hj hid
  exact ⟨by simp [delete_item, hfind], by simp [edit_item, hfind]⟩

theorem item_mutation_requires_ownership_witness :
    delete_item c10DB 2 "itm00001" = (some Err.notFound, c10DB)
    ∧ edit_item c10DB 2 "itm00001" c10Form = (some Err.notFound, c10DB) :=
  item_mutation_requires_ownership c10DB 2 "itm00001" c10Form (by decide)

end LostFound
